import Mathlib

/-!
Shallow embedding of the PubMed helper core (query builder, PubMed API
client, statistics sampler) together with theorems checking the
natural-language specification against the code.

Python strings become `String`, optional values become `Option`,
dictionaries become insertion-ordered association lists, and the HTTP
layer is abstracted by explicit response oracles passed as arguments.
-/

namespace PubMedHelper

/-- Python truthiness of an optional string: `None` and `""` are falsy. -/
def truthy : Option String → Bool
  | none => false
  | some s => s != ""

/-- Embedding of Python `sep.join(parts)`. -/
def joinWith (sep : String) : List String → String
  | [] => ""
  | [x] => x
  | x :: y :: xs => x ++ sep ++ joinWith sep (y :: xs)

theorem joinWith_cons_cons (sep x y : String) (xs : List String) :
    joinWith sep (x :: y :: xs) = x ++ sep ++ joinWith sep (y :: xs) := rfl

theorem joinWith_append_singleton (sep d : String) :
    ∀ (xs : List String), xs ≠ [] →
      joinWith sep (xs ++ [d]) = joinWith sep xs ++ sep ++ d
  | [], h => absurd rfl h
  | [x], _ => rfl
  | x :: y :: xs, _ => by
      have ih := joinWith_append_singleton sep d (y :: xs) (by simp)
      simp only [List.cons_append, joinWith_cons_cons] at *
      rw [ih]
      simp [String.append_assoc]

/-- Embedding of Python `s.strip()`: drop leading and trailing whitespace.
(Structurally recursive model of the library `trim`, so that concrete
terms evaluate.) -/
def pyStrip (s : String) : String :=
  String.mk
    (((s.toList.dropWhile Char.isWhitespace).reverse.dropWhile
        Char.isWhitespace).reverse)

/-- Embedding of Python `s.strip(chars)` for a set of characters given by a
predicate. -/
def pyStripChars (p : Char → Bool) (s : String) : String :=
  String.mk (((s.toList.dropWhile p).reverse.dropWhile p).reverse)

/-- Embedding of Python `s.replace(c, r)` for single-character patterns. -/
def pyReplaceChar (s : String) (c r : Char) : String :=
  String.mk (s.toList.map (fun ch => if ch = c then r else ch))

/-- Embedding of Python `s.split(c)` for a single-character separator. -/
def splitOnCharAux (c : Char) : List Char → List Char → List String
  | [], cur => [String.mk cur.reverse]
  | ch :: rest, cur =>
    if ch = c then String.mk cur.reverse :: splitOnCharAux c rest []
    else splitOnCharAux c rest (ch :: cur)

/-- Embedding of Python `s.split(c)`. -/
def splitOnChar (c : Char) (s : String) : List String :=
  splitOnCharAux c s.toList []

/-- Embedding of Python `s.startswith(pre)`. -/
def pyStartsWith (s pre : String) : Bool :=
  pre.toList.isPrefixOf s.toList

/-! ## QueryBuilder (`build_search_query`, `routes.py` lines 113-166) -/

/-- The main query clause of `build_search_query`: wraps the query text in
the field tag selected by `search_type` (author names have periods replaced
by spaces and are trimmed; the comma branch of the source produces the same
string in either arm). -/
def mainQueryClause (query : String) (search_type : Option String) : String :=
  if search_type = some "author" then
    let clean_query := pyStrip (pyReplaceChar query '.' ' ')
    if clean_query.toList.contains ',' then clean_query ++ "[Author]"
    else clean_query ++ "[Author]"
  else if search_type = some "journal" then
    query ++ "[Journal]"
  else if search_type = some "affiliation" then
    query ++ "[Affiliation]"
  else
    query

/-- The MeSH clause: split on commas, trim, drop empties, tag each term,
AND-join and parenthesize; yields no clause when nothing remains. -/
def meshParts (mesh_terms : Option String) : List String :=
  if truthy mesh_terms then
    let mesh_terms_list := (splitOnChar ',' (mesh_terms.getD "")).map pyStrip
    let mp := mesh_terms_list.filterMap
      (fun term => if term = "" then none else some (term ++ "[MeSH Terms]"))
    if mp = [] then [] else ["(" ++ joinWith " AND " mp ++ ")"]
  else []

/-- The date-range clause of `build_search_query` (only meaningful when at
least one bound is truthy). -/
def dateClause (year_from year_to : Option String) : String :=
  if truthy year_from && truthy year_to then
    (year_from.getD "") ++ ":" ++ (year_to.getD "") ++ "[dp]"
  else if truthy year_from then
    (year_from.getD "") ++ ":3000[dp]"
  else
    "1800:" ++ (year_to.getD "") ++ "[dp]"

/-- The clause list accumulated by `build_search_query`, in source order:
main query clause (always appended, even when empty), grant number,
publication type, MeSH clause, date range. -/
def queryParts (query : String)
    (search_type year_from year_to grant_number publication_type mesh_terms :
      Option String) : List String :=
  mainQueryClause query search_type ::
    ((if truthy grant_number then [(grant_number.getD "") ++ "[Grant Number]"] else []) ++
     (if truthy publication_type then
        [(publication_type.getD "") ++ "[Publication Type]"] else []) ++
     meshParts mesh_terms ++
     (if truthy year_from || truthy year_to then [dateClause year_from year_to] else []))

/-- Embedding of `build_search_query` (`routes.py` lines 113-166):
accumulate the clauses and join them with `" AND "`. Parameter order
matches the Python signature. -/
def build_search_query (query : String)
    (search_type year_from year_to grant_number publication_type mesh_terms :
      Option String) : String :=
  joinWith " AND "
    (queryParts query search_type year_from year_to grant_number publication_type
      mesh_terms)

/-- The term `search_pubmed` sends upstream (`routes.py` line 177): the
`filters` argument is passed as the third positional argument of
`build_search_query`, i.e. into `year_from`. -/
def searchPubmedTerm (query : String) (search_type filters : Option String) : String :=
  build_search_query query search_type filters none none none none

theorem queryParts_split_date (query : String)
    (search_type year_from year_to grant_number publication_type mesh_terms :
      Option String) :
    queryParts query search_type year_from year_to grant_number publication_type
        mesh_terms =
      (mainQueryClause query search_type ::
        ((if truthy grant_number then [(grant_number.getD "") ++ "[Grant Number]"] else []) ++
         (if truthy publication_type then
            [(publication_type.getD "") ++ "[Publication Type]"] else []) ++
         meshParts mesh_terms)) ++
      (if truthy year_from || truthy year_to then [dateClause year_from year_to] else []) := by
  simp [queryParts, List.append_assoc]

/-- C5: `build_search_query` maps the year bounds to a date clause appended
after all other clauses: both bounds → `from:to[dp]`; only `year_from` →
`from:3000[dp]`; only `year_to` → `1800:to[dp]`; neither → no date clause. -/
theorem build_search_query_date_cases (query : String)
    (search_type grant_number publication_type mesh_terms year_from year_to :
      Option String) :
    build_search_query query search_type year_from year_to grant_number
        publication_type mesh_terms =
      build_search_query query search_type none none grant_number publication_type
          mesh_terms ++
        (if truthy year_from && truthy year_to then
          " AND " ++ ((year_from.getD "") ++ ":" ++ (year_to.getD "") ++ "[dp]")
        else if truthy year_from then
          " AND " ++ ((year_from.getD "") ++ ":3000[dp]")
        else if truthy year_to then
          " AND " ++ ("1800:" ++ (year_to.getD "") ++ "[dp]")
        else "") := by
  unfold build_search_query
  rw [queryParts_split_date, queryParts_split_date]
  have hfalse : truthy none = false := rfl
  rw [hfalse]
  simp only [Bool.or_self, Bool.false_eq_true, if_false, List.append_nil]
  cases h1 : truthy year_from <;> cases h2 : truthy year_to <;>
    simp only [Bool.or_self, Bool.false_or, Bool.or_false, Bool.true_or,
      Bool.and_self, Bool.false_and, Bool.true_and, Bool.and_false, Bool.and_true,
      Bool.false_eq_true, if_false, if_true, List.append_nil, String.append_empty,
      dateClause, h1, h2]
  · rw [joinWith_append_singleton " AND " _ _ (by simp)]
    simp [String.append_assoc]
  · rw [joinWith_append_singleton " AND " _ _ (by simp)]
    simp [String.append_assoc]
  · rw [joinWith_append_singleton " AND " _ _ (by simp)]
    simp [String.append_assoc]

/-- C6 (amended): `build_search_query` joins the accumulated clauses with
`" AND "` in the fixed order main-query, grant number, publication type,
MeSH, date range; the main query clause is always included, even when the
query text is empty (so an empty query with a filter yields a leading
`" AND "`), and an empty query with no filters yields the empty string. -/
theorem build_search_query_join_fixed_order (query : String)
    (search_type year_from year_to grant_number publication_type mesh_terms :
      Option String) :
    build_search_query query search_type year_from year_to grant_number
        publication_type mesh_terms =
      joinWith " AND "
        (mainQueryClause query search_type ::
          ((if truthy grant_number then [(grant_number.getD "") ++ "[Grant Number]"] else []) ++
           (if truthy publication_type then
              [(publication_type.getD "") ++ "[Publication Type]"] else []) ++
           meshParts mesh_terms ++
           (if truthy year_from || truthy year_to then [dateClause year_from year_to]
            else []))) ∧
    build_search_query "" none none none none none none = "" ∧
    build_search_query "" none none none (some "G1") none none =
      " AND G1[Grant Number]" :=
  ⟨rfl, rfl, rfl⟩

/-- C6 counterexample: with an empty query text and a grant-number filter the
empty main clause is still joined, so the result is not the `" AND "`-join of
only the non-empty clauses (which would be `"G1[Grant Number]"`). -/
theorem build_search_query_joins_empty_clause_cx :
    build_search_query "" none none none (some "G1") none none =
      " AND G1[Grant Number]" ∧
    build_search_query "" none none none (some "G1") none none ≠
      "G1[Grant Number]" := by
  exact ⟨rfl, by decide⟩

/-- C3: `search_pubmed` forwards its `filters` argument positionally into
the `year_from` parameter of `build_search_query`: a truthy `filters` value
`f` produces exactly the main query clause followed by the date clause
`f:3000[dp]`, and no grant-number, publication-type or MeSH clause is ever
part of the term `search_pubmed` sends upstream. -/
theorem searchPubmed_forwards_filters_as_year_from (query : String)
    (search_type filters : Option String) :
    searchPubmedTerm query search_type filters =
      mainQueryClause query search_type ++
        (if truthy filters then " AND " ++ ((filters.getD "") ++ ":3000[dp]")
         else "") := by
  unfold searchPubmedTerm build_search_query
  rw [queryParts_split_date]
  have hfalse : truthy none = false := rfl
  simp only [hfalse, if_false, meshParts, Bool.false_eq_true, List.append_nil,
    Bool.or_false]
  cases h : truthy filters <;>
    simp only [h, hfalse, Bool.false_eq_true, if_false, if_true, List.append_nil,
      String.append_empty, dateClause, Bool.and_false, Bool.false_and,
      Bool.true_and, joinWith, String.append_assoc]

/-! ## Company-name configuration (`pubmed_api.py` lines 38-63) -/

/-- One entry of a company's `variations` list in the manufacturer
configuration: a historical name valid from `start_year` to `end_year`. -/
structure NameVariation where
  name : String
  start_year : Nat
  end_year : Nat
deriving DecidableEq

/-- One entry of a company's `acquisitions` list: a name effective from
`year` on. -/
structure Acquisition where
  name : String
  year : Nat
deriving DecidableEq

/-- The configuration record stored per company. -/
structure CompanyData where
  display_order : Option Nat := none
  variations : List NameVariation := []
  acquisitions : List Acquisition := []
deriving DecidableEq

/-- The configuration provider: `config.get(company, {})` is modelled by an
optional lookup defaulting to the empty record. -/
def CompanyConfig : Type := String → Option CompanyData

/-- Embedding of `PubMedAPI._get_company_names`: name variations whose year
range contains `year`, then acquisition names already effective, falling
back to the bare company name when nothing applies. -/
def getCompanyNames (cfg : CompanyConfig) (company : String) (year : Nat) :
    List String :=
  let company_data := (cfg company).getD {}
  let names :=
    (company_data.variations.filter
      (fun v => decide (v.start_year ≤ year) && decide (year ≤ v.end_year))).map
        (fun v => v.name) ++
    (company_data.acquisitions.filter (fun a => decide (a.year ≤ year))).map
      (fun a => a.name)
  if names.isEmpty then [company] else names

/-! ## `PubMedAPI.get_publication_count` (`pubmed_api.py` lines 136-217) -/

/-- The three field-tagged terms built for one company name (no quotes
around the name, per the source comment "without quotes for more flexible
matching"), plus the extra abbreviation terms for the two General
Electric special cases. -/
def companyTermsForName (name : String) : List String :=
  ["(" ++ name ++ "[Affiliation])",
   "(" ++ name ++ "[Grant Number])",
   "(" ++ name ++ "[Grant])"] ++
  (if pyStartsWith name "General Electric" then
    ["(GE[Affiliation])", "(GE[Grant Number])", "(GE[Grant])"]
  else if pyStartsWith name "GE HealthCare" then
    ["(GE Healthcare[Affiliation])", "(GE Healthcare[Grant Number])",
     "(GE Healthcare[Grant])"]
  else [])

/-- Embedding of `list(dict.fromkeys(l))`: drop duplicates, keeping the
first occurrence of each element. -/
def dedupKeepFirst (l : List String) : List String :=
  l.foldl (fun acc x => if acc.contains x then acc else acc ++ [x]) []

/-- The Python local `date_range` of `get_publication_count`:
`f"{year}/01/01[dp]:{year}/12/31[dp]"`. -/
def dateRangeFor (year : Nat) : String :=
  toString year ++ "/01/01[dp]:" ++ toString year ++ "/12/31[dp]"

/-- The Python local `company_query` of `get_publication_count`: the
de-duplicated company terms for all applicable names, OR-joined. -/
def companyQueryFor (cfg : CompanyConfig) (name : String) (year : Nat) : String :=
  joinWith " OR "
    (dedupKeepFirst ((getCompanyNames cfg name year).map companyTermsForName).flatten)

/-- The full search term built by `get_publication_count`: date range for
the year, OR-joined de-duplicated company terms when a company is given,
and the topic query when non-blank (Python `query.strip()`). -/
def publicationCountTerm (cfg : CompanyConfig) (query : String) (year : Nat)
    (company : Option String) : String :=
  if truthy company then
    if pyStrip query != "" then
      "(" ++ query ++ ") AND (" ++ companyQueryFor cfg (company.getD "") year ++
        ") AND " ++ dateRangeFor year
    else
      "(" ++ companyQueryFor cfg (company.getD "") year ++ ") AND " ++
        dateRangeFor year
  else
    if pyStrip query != "" then "(" ++ query ++ ") AND " ++ dateRangeFor year
    else dateRangeFor year

/-- Observable behaviour of one `get_publication_count` call: the term it
sends, how many `_make_request` calls it issues, the verification sleeps
(in seconds) it performs on top of rate limiting, and the returned count. -/
structure CountCall where
  term : String
  numRequests : Nat
  extraDelays : List Nat
  result : Nat
deriving DecidableEq

/-- Embedding of `PubMedAPI.get_publication_count`. `respond i` is the
count parsed from the `i`-th `_make_request` issued for this term, `none`
meaning the request raised after exhausting its retries (the surrounding
`except` then returns 0). A first count of at least 100 is trusted; a
lower count triggers one verification re-request after the fixed
2-second `verification_delay`, and on a mismatch the larger count wins. -/
def getPublicationCount (cfg : CompanyConfig) (query : String) (year : Nat)
    (company : Option String) (respond : Nat → Option Nat) : CountCall :=
  let term := publicationCountTerm cfg query year company
  match respond 0 with
  | none => ⟨term, 1, [], 0⟩
  | some count =>
    if 100 ≤ count then ⟨term, 1, [], count⟩
    else
      match respond 1 with
      | none => ⟨term, 2, [2], 0⟩
      | some verify_count =>
        ⟨term, 2, [2], if verify_count ≠ count then max count verify_count else count⟩

theorem getPublicationCount_term (cfg : CompanyConfig) (query : String)
    (year : Nat) (company : Option String) (respond : Nat → Option Nat) :
    (getPublicationCount cfg query year company respond).term =
      publicationCountTerm cfg query year company := by
  unfold getPublicationCount
  split
  · rfl
  · split
    · rfl
    · split <;> rfl

/-- C4: when the first successful count response reports at least 100 the
count is returned directly from a single request; when it is below 100
(including 0) the same query is re-issued exactly once after the extra
fixed 2-second `verification_delay` and the maximum of the two counts is
returned. -/
theorem getPublicationCount_low_count_verification (cfg : CompanyConfig)
    (query : String) (year : Nat) (company : Option String)
    (respond : Nat → Option Nat) (c : Nat) (h0 : respond 0 = some c) :
    (100 ≤ c →
      (getPublicationCount cfg query year company respond).numRequests = 1 ∧
      (getPublicationCount cfg query year company respond).extraDelays = [] ∧
      (getPublicationCount cfg query year company respond).result = c) ∧
    (c < 100 →
      (getPublicationCount cfg query year company respond).numRequests = 2 ∧
      (getPublicationCount cfg query year company respond).extraDelays = [2] ∧
      ∀ v, respond 1 = some v →
        (getPublicationCount cfg query year company respond).result = max c v) := by
  constructor
  · intro hc
    simp [getPublicationCount, h0, if_pos hc]
  · intro hc
    simp only [getPublicationCount, h0, if_neg (by omega : ¬ 100 ≤ c)]
    cases h1 : respond 1 with
    | none =>
      refine ⟨rfl, rfl, fun v hv => ?_⟩
      cases hv
    | some v' =>
      refine ⟨rfl, rfl, fun v hv => ?_⟩
      injection hv with hv'
      subst hv'
      by_cases hvc : v' = c
      · subst hvc; simp
      · simp [hvc]

/-- Witness for C4: a first count of 50 (below 100) triggers exactly one
re-request after a 2-second delay and the maximum of the two counts
(50 and 50) is returned. -/
theorem getPublicationCount_low_count_verification_witness :
    (getPublicationCount (fun _ => none) "q" 2020 none
        (fun _ => some 50)).numRequests = 2 ∧
    (getPublicationCount (fun _ => none) "q" 2020 none
        (fun _ => some 50)).extraDelays = [2] ∧
    (getPublicationCount (fun _ => none) "q" 2020 none
        (fun _ => some 50)).result = 50 := by
  have h := (getPublicationCount_low_count_verification (fun _ => none) "q" 2020
      none (fun _ => some 50) 50 rfl).2 (by omega)
  refine ⟨h.1, h.2.1, ?_⟩
  have hr := h.2.2 50 rfl
  simpa using hr

/-- C1 counterexample: for query "insulin pump", manufacturer "Medtronic",
year 2015 with the bare-name fallback, the term `get_publication_count`
builds contains no quotes around the company name, so it differs from the
claimed quoted term string. -/
theorem getPublicationCount_medtronic_term_cx :
    (getPublicationCount (fun _ => none) "insulin pump" 2015 (some "Medtronic")
        (fun _ => some 150)).term =
      "(insulin pump) AND ((Medtronic[Affiliation]) OR (Medtronic[Grant Number]) OR (Medtronic[Grant])) AND 2015/01/01[dp]:2015/12/31[dp]" ∧
    (getPublicationCount (fun _ => none) "insulin pump" 2015 (some "Medtronic")
        (fun _ => some 150)).term ≠
      "(insulin pump) AND ((\"Medtronic\"[Affiliation]) OR (\"Medtronic\"[Grant Number]) OR (\"Medtronic\"[Grant])) AND 2015/01/01[dp]:2015/12/31[dp]" := by
  exact ⟨by decide, by decide⟩

/-- C1 (amended): for query "insulin pump", manufacturer "Medtronic" and
year 2015, when no configured name variation applies (the bare company
name is used), `get_publication_count` builds exactly the unquoted term
`(insulin pump) AND ((Medtronic[Affiliation]) OR (Medtronic[Grant Number])
OR (Medtronic[Grant])) AND 2015/01/01[dp]:2015/12/31[dp]`, issues one
count request when the first count is at least 100 (a verification
re-request occurs otherwise), and returns an integer that is at least 0. -/
theorem getPublicationCount_medtronic_2015 (cfg : CompanyConfig)
    (respond : Nat → Option Nat)
    (h : getCompanyNames cfg "Medtronic" 2015 = ["Medtronic"]) :
    (getPublicationCount cfg "insulin pump" 2015 (some "Medtronic")
        respond).term =
      "(insulin pump) AND ((Medtronic[Affiliation]) OR (Medtronic[Grant Number]) OR (Medtronic[Grant])) AND 2015/01/01[dp]:2015/12/31[dp]" ∧
    (∀ c, respond 0 = some c → 100 ≤ c →
      (getPublicationCount cfg "insulin pump" 2015 (some "Medtronic")
        respond).numRequests = 1) ∧
    0 ≤ ((getPublicationCount cfg "insulin pump" 2015 (some "Medtronic")
        respond).result : Int) := by
  refine ⟨?_, ?_, Int.natCast_nonneg _⟩
  · rw [getPublicationCount_term]
    unfold publicationCountTerm
    rw [if_pos (by decide : truthy (some "Medtronic") = true),
      if_pos (by decide : (pyStrip "insulin pump" != "") = true)]
    rw [show companyQueryFor cfg ((some "Medtronic").getD "") 2015 =
        joinWith " OR "
          (dedupKeepFirst
            ((getCompanyNames cfg "Medtronic" 2015).map
              companyTermsForName).flatten) from rfl]
    rw [h]
    decide
  · intro c h0 hc
    simp [getPublicationCount, h0, if_pos hc]

/-- Witness for C1: with an empty configuration (so the bare name is used)
and a first response count of 150, the unquoted term is built and exactly
one count request is issued. -/
theorem getPublicationCount_medtronic_2015_witness :
    (getPublicationCount (fun _ => none) "insulin pump" 2015 (some "Medtronic")
        (fun _ => some 150)).term =
      "(insulin pump) AND ((Medtronic[Affiliation]) OR (Medtronic[Grant Number]) OR (Medtronic[Grant])) AND 2015/01/01[dp]:2015/12/31[dp]" ∧
    (getPublicationCount (fun _ => none) "insulin pump" 2015 (some "Medtronic")
        (fun _ => some 150)).numRequests = 1 :=
  ⟨(getPublicationCount_medtronic_2015 (fun _ => none) (fun _ => some 150)
      (by decide)).1,
   (getPublicationCount_medtronic_2015 (fun _ => none) (fun _ => some 150)
      (by decide)).2.1 150 rfl (by norm_num)⟩

/-! ## `PubMedAPI._make_request` retry loop (`pubmed_api.py` lines 98-134) -/

/-- What one attempt of `_make_request` observes: the transport call raises
a `RequestException` (carrying an error id), or the response arrives but
`_verify_response` returns `False`, or a verified response (its parsed
payload abstracted as a `Nat`) is obtained. -/
inductive AttemptOutcome where
  | netError (e : Nat)
  | verifyFail
  | success (r : Nat)
deriving DecidableEq

/-- What `_make_request` can raise: the stored `last_error` transport
exception, or the generic `Exception("All retry attempts failed")` when no
transport error was recorded. -/
inductive RequestError where
  | transport (e : Nat)
  | allFailed
deriving DecidableEq

/-- Trace of one `_make_request` call: the returned response or raised
error, the backoff sleeps performed (in seconds, in order), and the number
of attempts made. -/
instance decEqExceptRequest : DecidableEq (Except RequestError Nat) := fun x y =>
  match x, y with
  | Except.ok a, Except.ok b => decidable_of_iff (a = b) (by simp)
  | Except.ok _, Except.error _ => Decidable.isFalse (by simp)
  | Except.error _, Except.ok _ => Decidable.isFalse (by simp)
  | Except.error a, Except.error b => decidable_of_iff (a = b) (by simp)

structure MakeRequestTrace where
  result : Except RequestError Nat
  sleeps : List Nat
  attempts : Nat

/-- `self.max_retries` (`pubmed_api.py` line 26). -/
def maxRetries : Nat := 5

/-- `self.base_retry_delay` (`pubmed_api.py` line 27). -/
def baseRetryDelay : Nat := 1

/-- One-for-one transcription of the `for attempt in range(self.max_retries)`
loop of `_make_request`: on success return the response; on a verification
failure sleep `retry_delay` and double it; on a transport error record it as
`last_error` and, unless this was the final attempt, sleep and double;
after the loop raise `last_error or Exception(...)`. `fuel` counts the
remaining loop iterations. -/
def makeRequestAux (outcomes : Nat → AttemptOutcome) :
    Nat → Nat → Nat → Option Nat → List Nat → MakeRequestTrace
  | 0, attempt, _, lastError, sleeps =>
    ⟨Except.error
      (match lastError with
       | some e => RequestError.transport e
       | none => RequestError.allFailed), sleeps, attempt⟩
  | fuel + 1, attempt, retryDelay, lastError, sleeps =>
    match outcomes attempt with
    | AttemptOutcome.success r => ⟨Except.ok r, sleeps, attempt + 1⟩
    | AttemptOutcome.verifyFail =>
      makeRequestAux outcomes fuel (attempt + 1) (retryDelay * 2) lastError
        (sleeps ++ [retryDelay])
    | AttemptOutcome.netError e =>
      if attempt < maxRetries - 1 then
        makeRequestAux outcomes fuel (attempt + 1) (retryDelay * 2) (some e)
          (sleeps ++ [retryDelay])
      else
        makeRequestAux outcomes fuel (attempt + 1) retryDelay (some e) sleeps

/-- Embedding of `PubMedAPI._make_request` over an oracle giving each
attempt's outcome. -/
def makeRequest (outcomes : Nat → AttemptOutcome) : MakeRequestTrace :=
  makeRequestAux outcomes maxRetries 0 baseRetryDelay none []

/-- The payload of the earliest successful attempt among
`outcomes start, outcomes (start+1), ...` within `fuel` attempts. -/
def firstSuccessFrom (outcomes : Nat → AttemptOutcome) (start : Nat) :
    Nat → Option Nat
  | 0 => none
  | fuel + 1 =>
    match outcomes start with
    | AttemptOutcome.success r => some r
    | _ => firstSuccessFrom outcomes (start + 1) fuel

/-- The error id of the latest transport error among
`outcomes start, ...` within `fuel` attempts, seeded with `acc`. -/
def lastNetErrorFrom (outcomes : Nat → AttemptOutcome) (start : Nat) :
    Nat → Option Nat → Option Nat
  | 0, acc => acc
  | fuel + 1, acc =>
    lastNetErrorFrom outcomes (start + 1) fuel
      (match outcomes start with
       | AttemptOutcome.netError e => some e
       | _ => acc)

theorem makeRequestAux_attempts_le (outcomes : Nat → AttemptOutcome) :
    ∀ (fuel attempt rd : Nat) (lastErr : Option Nat) (sleeps : List Nat),
      (makeRequestAux outcomes fuel attempt rd lastErr sleeps).attempts ≤
        attempt + fuel := by
  intro fuel
  induction fuel with
  | zero => intro attempt rd lastErr sleeps; simp [makeRequestAux]
  | succ n ih =>
    intro attempt rd lastErr sleeps
    simp only [makeRequestAux]
    cases h : outcomes attempt with
    | success r => simp
    | verifyFail => exact le_trans (ih _ _ _ _) (by omega)
    | netError e =>
      by_cases hc : attempt < maxRetries - 1
      · simp only [hc, if_true]
        exact le_trans (ih _ _ _ _) (by omega)
      · simp only [hc, if_false]
        exact le_trans (ih _ _ _ _) (by omega)

theorem makeRequestAux_sleeps_pow (outcomes : Nat → AttemptOutcome) :
    ∀ (fuel attempt : Nat) (lastErr : Option Nat) (sleeps : List Nat),
      sleeps = (List.range sleeps.length).map (fun i => 2 ^ i) →
      (makeRequestAux outcomes fuel attempt (2 ^ sleeps.length) lastErr
          sleeps).sleeps =
        (List.range
          (makeRequestAux outcomes fuel attempt (2 ^ sleeps.length) lastErr
            sleeps).sleeps.length).map (fun i => 2 ^ i) := by
  intro fuel
  induction fuel with
  | zero => intro attempt lastErr sleeps h; simpa [makeRequestAux] using h
  | succ n ih =>
    intro attempt lastErr sleeps h
    simp only [makeRequestAux]
    have hstep : sleeps ++ [2 ^ sleeps.length] =
        (List.range (sleeps ++ [2 ^ sleeps.length]).length).map (fun i => 2 ^ i) := by
      rw [List.length_append, List.length_singleton, List.range_succ,
        List.map_append]
      rw [h]
      simp
    have hlen : 2 ^ sleeps.length * 2 = 2 ^ (sleeps ++ [2 ^ sleeps.length]).length := by
      rw [List.length_append, List.length_singleton, pow_succ]
    cases hout : outcomes attempt with
    | success r => simpa using h
    | verifyFail =>
      rw [hlen]
      exact ih _ _ _ hstep
    | netError e =>
      by_cases hc : attempt < maxRetries - 1
      · simp only [hc, if_true]
        rw [hlen]
        exact ih _ _ _ hstep
      · simp only [hc, if_false]
        exact ih _ _ _ h

theorem makeRequestAux_ok_iff (outcomes : Nat → AttemptOutcome) :
    ∀ (fuel attempt rd : Nat) (lastErr : Option Nat) (sleeps : List Nat) (r : Nat),
      (makeRequestAux outcomes fuel attempt rd lastErr sleeps).result =
          Except.ok r ↔
        firstSuccessFrom outcomes attempt fuel = some r := by
  intro fuel
  induction fuel with
  | zero => intro attempt rd lastErr sleeps r; simp [makeRequestAux, firstSuccessFrom]
  | succ n ih =>
    intro attempt rd lastErr sleeps r
    simp only [makeRequestAux, firstSuccessFrom]
    cases h : outcomes attempt with
    | success r' => simp
    | verifyFail => exact ih _ _ _ _ _
    | netError e =>
      by_cases hc : attempt < maxRetries - 1
      · simp only [hc, if_true]; exact ih _ _ _ _ _
      · simp only [hc, if_false]; exact ih _ _ _ _ _

theorem makeRequestAux_error (outcomes : Nat → AttemptOutcome) :
    ∀ (fuel attempt rd : Nat) (lastErr : Option Nat) (sleeps : List Nat),
      firstSuccessFrom outcomes attempt fuel = none →
      (makeRequestAux outcomes fuel attempt rd lastErr sleeps).result =
        Except.error
          (match lastNetErrorFrom outcomes attempt fuel lastErr with
           | some e => RequestError.transport e
           | none => RequestError.allFailed) := by
  intro fuel
  induction fuel with
  | zero => intro attempt rd lastErr sleeps _; simp [makeRequestAux, lastNetErrorFrom]
  | succ n ih =>
    intro attempt rd lastErr sleeps hnone
    simp only [makeRequestAux, lastNetErrorFrom]
    simp only [firstSuccessFrom] at hnone
    cases h : outcomes attempt with
    | success r' => rw [h] at hnone; exact absurd hnone (by simp)
    | verifyFail => rw [h] at hnone; exact ih _ _ _ _ hnone
    | netError e =>
      rw [h] at hnone
      by_cases hc : attempt < maxRetries - 1
      · simp only [hc, if_true]; exact ih _ _ _ _ hnone
      · simp only [hc, if_false]; exact ih _ _ _ _ hnone

/-- C2: every `_make_request` call makes at most 5 attempts; the sleeps it
performs between attempts are the exponential backoff 1s, 2s, 4s, ...
(doubling after each retry); it returns successfully exactly when one of
the first 5 attempts yields a verified response (retrying through both
transport errors and verification failures); and when all 5 attempts are
exhausted it raises the most recently caught transport error, or the
generic "All retry attempts failed" exception when every failure was a
verification failure. -/
theorem makeRequest_retry_policy (outcomes : Nat → AttemptOutcome) :
    (makeRequest outcomes).attempts ≤ 5 ∧
    (makeRequest outcomes).sleeps =
      (List.range (makeRequest outcomes).sleeps.length).map (fun i => 2 ^ i) ∧
    (∀ r, (makeRequest outcomes).result = Except.ok r ↔
      firstSuccessFrom outcomes 0 5 = some r) ∧
    (firstSuccessFrom outcomes 0 5 = none →
      (makeRequest outcomes).result =
        Except.error
          (match lastNetErrorFrom outcomes 0 5 none with
           | some e => RequestError.transport e
           | none => RequestError.allFailed)) := by
  refine ⟨?_, ?_, ?_, ?_⟩
  · exact makeRequestAux_attempts_le outcomes 5 0 1 none []
  · exact makeRequestAux_sleeps_pow outcomes 5 0 none [] rfl
  · exact fun r => makeRequestAux_ok_iff outcomes 5 0 1 none [] r
  · exact fun h => makeRequestAux_error outcomes 5 0 1 none [] h

/-- Witness for C2: a fixture failing verification twice and succeeding on
the third attempt returns the success result after backoff sleeps of
1s then 2s. -/
theorem makeRequest_retry_policy_witness :
    (makeRequest
      (fun n => if n = 2 then AttemptOutcome.success 42
                else AttemptOutcome.verifyFail)).result = Except.ok 42 ∧
    (makeRequest
      (fun n => if n = 2 then AttemptOutcome.success 42
                else AttemptOutcome.verifyFail)).sleeps = [1, 2] := by
  constructor
  · exact ((makeRequest_retry_policy
      (fun n => if n = 2 then AttemptOutcome.success 42
                else AttemptOutcome.verifyFail)).2.2.1 42).mpr (by decide)
  · have h := (makeRequest_retry_policy
      (fun n => if n = 2 then AttemptOutcome.success 42
                else AttemptOutcome.verifyFail)).2.1
    have hlen : (makeRequest
      (fun n => if n = 2 then AttemptOutcome.success 42
                else AttemptOutcome.verifyFail)).sleeps.length = 2 := by decide
    rw [hlen] at h
    simpa using h


/-! ## `parse_pubmed_article` (`basic_search/routes.py` lines 12-111)

The relevant shape of one `PubmedArticle` XML element. Element presence is
modelled with an outer `Option`; the `.text` of a present element is an
inner `Option String`, since ElementTree yields `None` for an element with
no text (such as an empty `ArticleTitle`). Python's `set()` of affiliations
is modelled as a first-seen ordered de-duplicated list. -/

/-- The pattern `el.text if el is not None else ""` used throughout the
parser: an absent element gives `""`; a present element gives its text,
which is `None` when the element is empty. -/
def textOrEmpty : Option (Option String) → Option String
  | none => some ""
  | some t => t

/-- Python f-string interpolation of a possibly-`None` string: `None` is
rendered as the four-character string `"None"`. -/
def pyFStr : Option String → String
  | none => "None"
  | some s => s

structure AuthorXml where
  lastName : Option (Option String)
  foreName : Option (Option String)
  affiliations : List (Option String)
deriving DecidableEq

structure PubDateXml where
  year : Option (Option String)
  month : Option (Option String)
  day : Option (Option String)
deriving DecidableEq

structure JournalXml where
  title : Option (Option String)
  pubDate : Option PubDateXml
deriving DecidableEq

structure GrantXml where
  grantID : Option (Option String)
  agency : Option (Option String)
deriving DecidableEq

structure ArticleXml where
  pmid : Option (Option String)
  articleTitle : Option (Option String)
  authors : List AuthorXml
  journal : Option JournalXml
  abstract : Option (Option (Option String))
  grants : List GrantXml
  meshDescriptors : List (Option (Option String))
  keywords : List (Option String)
  publicationTypes : List (Option String)
deriving DecidableEq

/-- One parsed grant entry (`{'id': ..., 'agency': ...}`); either value is
`None` when its element is present but empty. -/
structure GrantInfo where
  id : Option String
  agency : Option String
deriving DecidableEq

/-- The record dictionary returned by `parse_pubmed_article`. `PMID`,
`Title`, `Journal` and `Abstract` carry raw `.text` values and so can be
`None`; `Authors`, `Affiliations` and `Publication_Date` are built with
joins and f-strings and are always strings; `MeSH_Terms` entries are raw
descriptor texts and can be `None`. -/
structure ParsedArticle where
  PMID : Option String
  Title : Option String
  Authors : String
  Affiliations : String
  Journal : Option String
  Publication_Date : String
  Abstract : Option String
  Grants : List GrantInfo
  MeSH_Terms : List (Option String)
  Keywords : List String
  Publication_Types : List String
deriving DecidableEq

/-- The author display name: `f"{last_name}, {fore_name}".strip(', ')`,
where a present-but-empty name element interpolates as `"None"`. -/
def authorDisplayName (au : AuthorXml) : String :=
  pyStripChars (fun c => c = ',' || c = ' ')
    (pyFStr (textOrEmpty au.lastName) ++ ", " ++ pyFStr (textOrEmpty au.foreName))

/-- Embedding of `parse_pubmed_article`. The happy path is total here, so
the `None`-on-exception case of the source cannot arise. Affiliations,
keywords and publication types are filtered on the truthiness of their
text (`el is not None and el.text`); MeSH descriptor texts are appended
unfiltered, `None` included. -/
def parsePubmedArticle (a : ArticleXml) : ParsedArticle :=
  let pmid := textOrEmpty a.pmid
  let title := match a.articleTitle with
    | some t => t
    | none => some "No Title"
  let authors := a.authors.map authorDisplayName
  let affiliations :=
    dedupKeepFirst (a.authors.map (fun au =>
      au.affiliations.filterMap
        (fun t => if truthy t then some (t.getD "") else none))).flatten
  let authors_str := if authors ≠ [] then joinWith "; " authors
    else "No Authors Listed"
  let affiliations_str := if affiliations ≠ [] then joinWith "; " affiliations
    else "No Affiliations Listed"
  let journal_title := match a.journal with
    | some j => textOrEmpty j.title
    | none => some "No Journal"
  let pub_date_str := match a.journal with
    | some j =>
      match j.pubDate with
      | some pd =>
        pyStrip (pyFStr (textOrEmpty pd.year) ++ " " ++
          pyFStr (textOrEmpty pd.month) ++ " " ++ pyFStr (textOrEmpty pd.day))
      | none => "No Date"
    | none => "No Date"
  let abstract := match a.abstract with
    | some (some t) => t
    | _ => some "No Abstract"
  let grants := a.grants.filterMap (fun g =>
    if g.grantID.isSome || g.agency.isSome then
      some ⟨textOrEmpty g.grantID, textOrEmpty g.agency⟩
    else none)
  let mesh_terms := a.meshDescriptors.filterMap id
  let keywords := a.keywords.filterMap
    (fun t => if truthy t then some (t.getD "") else none)
  let pub_types := a.publicationTypes.filterMap
    (fun t => if truthy t then some (t.getD "") else none)
  ⟨pmid, title, authors_str, affiliations_str, journal_title, pub_date_str,
   abstract, grants, mesh_terms, keywords, pub_types⟩

/-- C9 counterexample: a present-but-empty `ArticleTitle` element parses to
`Title = None` — a null field, not the `"No Title"` sentinel; a present
`Journal` element with no `Title` sub-element parses to `Journal = ""`,
not `"No Journal"`; and a present `PubDate` with no components parses to
`Publication_Date = ""`, not `"No Date"`. -/
theorem parsePubmedArticle_missing_subfield_cx :
    (parsePubmedArticle
      ⟨some (some "1"), some none, [], some ⟨none, some ⟨none, none, none⟩⟩,
        none, [], [], [], []⟩).Title = none ∧
    (parsePubmedArticle
      ⟨some (some "1"), some none, [], some ⟨none, some ⟨none, none, none⟩⟩,
        none, [], [], [], []⟩).Journal = some "" ∧
    (parsePubmedArticle
      ⟨some (some "1"), some none, [], some ⟨none, some ⟨none, none, none⟩⟩,
        none, [], [], [], []⟩).Publication_Date = "" ∧
    (none : Option String) ≠ some "No Title" ∧
    (some "" : Option String) ≠ some "No Journal" ∧
    "" ≠ "No Date" := by
  exact ⟨rfl, rfl, by decide, by decide, by decide, by decide⟩

/-- C9 (amended): the sentinel defaults of `parse_pubmed_article` apply
only when the element is entirely absent: `Title` defaults to `"No Title"`
when `ArticleTitle` is absent, `Authors`/`Affiliations` default when the
respective collections are empty, `Journal` and `Publication_Date` default
to `"No Journal"`/`"No Date"` only when the whole `Journal` (resp.
`PubDate`) element is absent, `Abstract` defaults when
`Abstract`/`AbstractText` is absent, and `PMID` defaults to `""`. The
fields are not never-null: a present element with empty text yields `None`
for `PMID`, `Title`, `Journal` and `Abstract` (and is rendered as the
string `"None"` inside author names and dates), and a present `Journal`
without a `Title` sub-element yields `""`. -/
theorem parsePubmedArticle_field_defaults (a : ArticleXml) :
    (parsePubmedArticle a).PMID = textOrEmpty a.pmid ∧
    (parsePubmedArticle a).Title =
      (match a.articleTitle with | some t => t | none => some "No Title") ∧
    (parsePubmedArticle a).Authors =
      (if a.authors = [] then "No Authors Listed"
       else joinWith "; " (a.authors.map authorDisplayName)) ∧
    (parsePubmedArticle a).Journal =
      (match a.journal with
       | some j => textOrEmpty j.title
       | none => some "No Journal") ∧
    (parsePubmedArticle a).Publication_Date =
      (match a.journal with
       | some j =>
         match j.pubDate with
         | some pd =>
           pyStrip (pyFStr (textOrEmpty pd.year) ++ " " ++
             pyFStr (textOrEmpty pd.month) ++ " " ++
             pyFStr (textOrEmpty pd.day))
         | none => "No Date"
       | none => "No Date") ∧
    (parsePubmedArticle a).Abstract =
      (match a.abstract with
       | some (some t) => t
       | _ => some "No Abstract") ∧
    (parsePubmedArticle a).Affiliations =
      (if dedupKeepFirst (a.authors.map (fun au =>
            au.affiliations.filterMap
              (fun t => if truthy t then some (t.getD "") else none))).flatten = []
       then "No Affiliations Listed"
       else joinWith "; "
         (dedupKeepFirst (a.authors.map (fun au =>
            au.affiliations.filterMap
              (fun t => if truthy t then some (t.getD "") else none))).flatten)) := by
  refine ⟨rfl, rfl, ?_, rfl, rfl, rfl, ?_⟩
  · by_cases h : a.authors = []
    · rw [if_pos h]
      simp [parsePubmedArticle, h]
    · rw [if_neg h]
      simp only [parsePubmedArticle]
      rw [if_pos (by simpa using h)]
  · by_cases h : dedupKeepFirst (a.authors.map (fun au =>
        au.affiliations.filterMap
          (fun t => if truthy t then some (t.getD "") else none))).flatten = []
    · rw [if_pos h]
      simp only [parsePubmedArticle]
      rw [if_neg (by simpa using h)]
    · rw [if_neg h]
      simp only [parsePubmedArticle]
      rw [if_pos (by simpa using h)]

/-! ## `collect_statistics` (`basic_search/routes.py` lines 273-374) -/

/-- Embedding of Python `s.isdigit()` (ASCII digits). -/
def pyIsdigit (s : String) : Bool :=
  s != "" && s.toList.all Char.isDigit

/-- Splitter for Python `s.split()` (whitespace, before dropping empties). -/
def splitPredAux (p : Char → Bool) : List Char → List Char → List String
  | [], cur => [String.mk cur.reverse]
  | ch :: rest, cur =>
    if p ch then String.mk cur.reverse :: splitPredAux p rest []
    else splitPredAux p rest (ch :: cur)

/-- Embedding of Python `s.split()`: split on whitespace, dropping empty
pieces. -/
def pySplitWs (s : String) : List String :=
  (splitPredAux Char.isWhitespace s.toList []).filter (· != "")

/-- Splitter for Python `s.split(sep)` with non-empty separator `c :: cs`. -/
def splitOnSepAux (c : Char) (cs : List Char) :
    List Char → List Char → List String
  | [], cur => [String.mk cur.reverse]
  | ch :: rest, cur =>
    if (c :: cs).isPrefixOf (ch :: rest) then
      String.mk cur.reverse :: splitOnSepAux c cs (rest.drop cs.length) []
    else
      splitOnSepAux c cs rest (ch :: cur)
termination_by l _ => l.length
decreasing_by
  all_goals simp [List.length_drop]
  omega

/-- Embedding of Python `s.split(sep)` for a non-empty separator string. -/
def pySplitSep (sep s : String) : List String :=
  match sep.toList with
  | [] => [s]
  | c :: cs => splitOnSepAux c cs s.toList []

/-- Association-list lookup, modelling Python `d[k]` / `d.get(k)`. -/
def dget {α β : Type} [DecidableEq α] : List (α × β) → α → Option β
  | [], _ => none
  | (a, b) :: t, k => if a = k then some b else dget t k

/-- Association-list assignment, modelling Python `d[k] = v` (in-place
update of an existing key, insertion at the end otherwise). -/
def dset {α β : Type} [DecidableEq α] : List (α × β) → α → β → List (α × β)
  | [], k, v => [(k, v)]
  | (a, b) :: t, k, v => if a = k then (a, v) :: t else (a, b) :: dset t k v

/-- Python `d[k] = d.get(k, 0) + 1`. -/
def dinc {α : Type} [DecidableEq α] (l : List (α × Nat)) (k : α) :
    List (α × Nat) :=
  dset l k ((dget l k).getD 0 + 1)

/-- The six frequency dictionaries accumulated by `collect_statistics`.
Journal and MeSH keys come from fields that can be Python `None` (and
`None != 'No Journal'` is true), so those dictionaries can hold a `None`
key. -/
structure StatsState where
  year_stats : List (String × Nat)
  author_stats : List (String × Nat)
  journal_stats : List (Option String × Nat)
  affiliation_stats : List (String × Nat)
  grant_stats : List (String × Nat)
  mesh_stats : List (Option String × Nat)

/-- Processing of one parsed record inside the sampling loop of
`collect_statistics` (`routes.py` lines 308-344): publication year (first
whitespace token of the date, if numeric), authors and affiliations split
on `"; "` excluding their sentinels, journal excluding its sentinel,
grants with a truthy id keyed `f"{id} ({agency})"`, and MeSH terms. -/
def processRecord (st : StatsState) (r : ParsedArticle) : StatsState :=
  let st :=
    match pySplitWs r.Publication_Date with
    | [] => st
    | y :: _ =>
      if pyIsdigit y then { st with year_stats := dinc st.year_stats y } else st
  let st := (pySplitSep "; " r.Authors).foldl
    (fun s a =>
      if a ≠ "No Authors Listed" then
        { s with author_stats := dinc s.author_stats a }
      else s) st
  let st :=
    if r.Journal ≠ some "No Journal" then
      { st with journal_stats := dinc st.journal_stats r.Journal }
    else st
  let st := (pySplitSep "; " r.Affiliations).foldl
    (fun s a =>
      if a ≠ "No Affiliations Listed" then
        { s with affiliation_stats := dinc s.affiliation_stats a }
      else s) st
  let st := r.Grants.foldl
    (fun s g =>
      if truthy g.id then
        let key := pyFStr g.id ++ " (" ++ pyFStr g.agency ++ ")"
        { s with grant_stats := dinc s.grant_stats key }
      else s) st
  r.MeSH_Terms.foldl (fun s t => { s with mesh_stats := dinc s.mesh_stats t }) st

/-- The `sampling_info` dictionary (`routes.py` lines 359-363). -/
structure SamplingInfo where
  total_results : Nat
  sampled_results : Nat
  sampling_percentage : ℚ

/-- The `all_stats` dictionary (`routes.py` lines 365-372). -/
structure AllStats where
  year_stats : List (String × Nat)
  top_authors : List (String × Nat)
  top_journals : List (Option String × Nat)
  top_affiliations : List (String × Nat)
  top_grants : List (String × Nat)
  top_mesh_terms : List (Option String × Nat)

/-- The two return shapes of `collect_statistics`: the four-tuple
`{}, {}, {}, {}` of the zero-result branch (line 282), and the pair
`all_stats, sampling_info` of the normal branch (line 374). -/
inductive CollectStatsReturn where
  | quad (a b c d : List (String × Nat))
  | pair (stats : AllStats) (info : SamplingInfo)

/-- The reported sampling percentage of a `collect_statistics` result, when
the result is the two-component pair. -/
def samplingPercentageOf : CollectStatsReturn → Option ℚ
  | CollectStatsReturn.quad _ _ _ _ => none
  | CollectStatsReturn.pair _ info => some info.sampling_percentage

/-- Model of Python `round(q, 2)` (ties rounded half-up rather than
half-even; no tie is relevant to the claims). -/
def pyRound2 (q : ℚ) : ℚ :=
  ((round (q * 100) : ℤ) : ℚ) / 100

/-- Embedding of `collect_statistics` with `total_results` abstracting the
initial count-only search and `batch i start_index` the records of the
`i`-th sampling call (`none` when that call raised and was skipped).
`math.ceil(total_results / 100)` is `(total_results + 99) / 100`. -/
def collectStatistics (total_results : Nat)
    (batch : Nat → Nat → Option (List ParsedArticle)) (max_samples : Nat) :
    CollectStatsReturn :=
  if total_results = 0 then CollectStatsReturn.quad [] [] [] []
  else
    let max_results_per_call := 100
    let num_samples := min (max_samples / max_results_per_call)
      ((total_results + 99) / max_results_per_call)
    let finalStats := (List.range num_samples).foldl
      (fun st i =>
        let start_index := i * (total_results / num_samples)
        match batch i start_index with
        | none => st
        | some results => results.foldl processRecord st)
      ⟨[], [], [], [], [], []⟩
    CollectStatsReturn.pair
      ⟨finalStats.year_stats.mergeSort (fun a b => decide (b.1 ≤ a.1)),
       (finalStats.author_stats.mergeSort (fun a b => decide (b.2 ≤ a.2))).take 10,
       (finalStats.journal_stats.mergeSort (fun a b => decide (b.2 ≤ a.2))).take 10,
       (finalStats.affiliation_stats.mergeSort (fun a b => decide (b.2 ≤ a.2))).take 10,
       (finalStats.grant_stats.mergeSort (fun a b => decide (b.2 ≤ a.2))).take 10,
       (finalStats.mesh_stats.mergeSort (fun a b => decide (b.2 ≤ a.2))).take 10⟩
      ⟨total_results, num_samples * max_results_per_call,
       pyRound2 (((num_samples * max_results_per_call : Nat) : ℚ) /
         (total_results : ℚ) * 100)⟩

/-- C7: when the initial count reports zero results, `collect_statistics`
returns the four-component `({}, {}, {}, {})` of its zero branch — not a
two-component `(EMPTY, EMPTY)` pair matching the non-empty case's
`(all_stats, sampling_info)` shape. -/
theorem collectStatistics_zero_total_returns_quad :
    collectStatistics 0 (fun _ _ => none) 10000 =
      CollectStatsReturn.quad [] [] [] [] ∧
    ∀ (batch : Nat → Nat → Option (List ParsedArticle)) (max_samples : Nat),
      collectStatistics 0 batch max_samples =
        CollectStatsReturn.quad [] [] [] [] :=
  ⟨rfl, fun _ _ => rfl⟩

/-- C8 counterexample: with `maxSamples = 10000` and `totalResults = 1` the
reported `sampling_percentage` is 10000.0 — far outside the claimed rough
`[0, 105]` band. -/
theorem collectStatistics_percentage_cx :
    samplingPercentageOf (collectStatistics 1 (fun _ _ => none) 10000) =
      some 10000 ∧ ¬ ((10000 : ℚ) ≤ 105) := by
  constructor
  · simp only [collectStatistics, samplingPercentageOf]
    norm_num [pyRound2, round_eq]
  · norm_num

/-- C8 (amended): for every run with `totalResults > 0` and
`maxSamples = 10000`, the reported `sampling_percentage` equals
`round(numSamples*100/totalResults*100, 2)` with
`numSamples = min(maxSamples // 100, ceil(totalResults / 100))`, and the
value always lies in `[0, 10000]`; it stays near `[0, 105]` only for large
result sets, and small ones overshoot up to 10000. -/
theorem collectStatistics_sampling_percentage (total_results : Nat)
    (h : 0 < total_results)
    (batch : Nat → Nat → Option (List ParsedArticle)) :
    samplingPercentageOf (collectStatistics total_results batch 10000) =
      some (pyRound2
        (((min (10000 / 100) ((total_results + 99) / 100) * 100 : Nat) : ℚ) /
          (total_results : ℚ) * 100)) ∧
    ∀ q, samplingPercentageOf (collectStatistics total_results batch 10000) =
        some q → 0 ≤ q ∧ q ≤ 10000 := by
  have htne : ¬ (total_results = 0) := by omega
  have heq : samplingPercentageOf (collectStatistics total_results batch 10000) =
      some (pyRound2
        (((min (10000 / 100) ((total_results + 99) / 100) * 100 : Nat) : ℚ) /
          (total_results : ℚ) * 100)) := by
    simp only [collectStatistics, htne, if_false, samplingPercentageOf]
  refine ⟨heq, fun q hq => ?_⟩
  rw [heq] at hq
  injection hq with hq'
  subst hq'
  set n : Nat := min (10000 / 100) ((total_results + 99) / 100) with hn
  have hceil : (total_results + 99) / 100 ≤ total_results := by omega
  have hn_le : n ≤ total_results := le_trans (min_le_right _ _) hceil
  have htpos : (0 : ℚ) < (total_results : ℚ) := by
    exact_mod_cast h
  have hx_nonneg : (0 : ℚ) ≤ ((n * 100 : Nat) : ℚ) / (total_results : ℚ) * 100 := by
    positivity
  have hx_le : ((n * 100 : Nat) : ℚ) / (total_results : ℚ) * 100 ≤ 10000 := by
    rw [div_mul_eq_mul_div, div_le_iff₀ htpos]
    push_cast
    have : (n : ℚ) ≤ (total_results : ℚ) := by exact_mod_cast hn_le
    nlinarith
  constructor
  · unfold pyRound2
    have hfloor : (0 : ℤ) ≤ round
        (((n * 100 : Nat) : ℚ) / (total_results : ℚ) * 100 * 100) := by
      rw [round_eq]
      apply Int.floor_nonneg.mpr
      nlinarith
    have : (0 : ℚ) ≤ ((round
        (((n * 100 : Nat) : ℚ) / (total_results : ℚ) * 100 * 100) : ℤ) : ℚ) := by
      exact_mod_cast hfloor
    positivity
  · unfold pyRound2
    have hround : round
        (((n * 100 : Nat) : ℚ) / (total_results : ℚ) * 100 * 100) ≤ 1000000 := by
      rw [round_eq]
      have h1 : ((n * 100 : Nat) : ℚ) / (total_results : ℚ) * 100 * 100 + 1 / 2 ≤
          1000000 + 1 / 2 := by nlinarith
      have h2 := Int.floor_mono h1
      have h3 : (⌊(1000000 + 1 / 2 : ℚ)⌋ : ℤ) = 1000000 := by norm_num
      omega
    have hcast : (((round
        (((n * 100 : Nat) : ℚ) / (total_results : ℚ) * 100 * 100)) : ℤ) : ℚ) ≤
        1000000 := by exact_mod_cast hround
    linarith

/-- Witness for C8: at `totalResults = 250` the reported percentage equals
the claimed formula and obeys the `[0, 10000]` bound. -/
theorem collectStatistics_sampling_percentage_witness :
    (0 < 250) ∧
    samplingPercentageOf (collectStatistics 250 (fun _ _ => none) 10000) =
      some (pyRound2
        (((min (10000 / 100) ((250 + 99) / 100) * 100 : Nat) : ℚ) /
          (250 : ℚ) * 100)) :=
  ⟨by decide,
   (collectStatistics_sampling_percentage 250 (by decide) (fun _ _ => none)).1⟩

/-! ## `PubMedAPI.get_publication_counts_by_year`
(`pubmed_api.py` lines 219-266) -/

theorem dget_dset_self {α β : Type} [DecidableEq α] :
    ∀ (l : List (α × β)) (k : α) (v : β), dget (dset l k v) k = some v
  | [], k, v => by simp [dset, dget]
  | (a, b) :: t, k, v => by
    by_cases h : a = k
    · simp [dset, dget, h]
    · simp only [dset, h, if_false]
      simp only [dget, h, if_false]
      exact dget_dset_self t k v

theorem dget_dset_ne {α β : Type} [DecidableEq α] :
    ∀ (l : List (α × β)) (k k' : α) (v : β), k ≠ k' →
      dget (dset l k v) k' = dget l k'
  | [], k, k', v, h => by simp [dset, dget, h]
  | (a, b) :: t, k, k', v, h => by
    by_cases ha : a = k
    · subst ha
      simp [dset, dget, h]
    · simp only [dset, ha, if_false, dget]
      by_cases ha' : a = k'
      · simp [ha']
      · simp only [ha', if_false]
        exact dget_dset_ne t k k' v h

/-- Ascending comparison on the `display_order` configuration key, with
missing orders sorting last (Python `float('inf')` default). -/
def displayOrderLe (cfg : CompanyConfig) (a b : String) : Bool :=
  match ((cfg a).getD {}).display_order, ((cfg b).getD {}).display_order with
  | none, none => true
  | none, some _ => false
  | some _, none => true
  | some x, some y => decide (x ≤ y)

/-- The results dictionary of `get_publication_counts_by_year`. -/
structure YearCountsResult where
  years : List Nat
  manufacturers : List String
  counts : List (Nat × List (String × Nat))
  totals_by_year : List (Nat × Nat)
  totals_by_manufacturer : List (String × Nat)

/-- Body of the inner `for manufacturer in sorted_manufacturers` loop:
`counts[year][manufacturer] = count`, `totals_by_year[year] += count`,
initialise-then-add `totals_by_manufacturer[manufacturer] += count`.
`countOf year m` abstracts `self.get_publication_count(topic, year, m)`. -/
def processManufacturer (countOf : Nat → String → Nat) (year : Nat)
    (st : YearCountsResult) (m : String) : YearCountsResult :=
  let c := countOf year m
  let counts := dset st.counts year (dset ((dget st.counts year).getD []) m c)
  let tby := dset st.totals_by_year year
    ((dget st.totals_by_year year).getD 0 + c)
  let tbm0 := if (dget st.totals_by_manufacturer m).isSome then
      st.totals_by_manufacturer
    else dset st.totals_by_manufacturer m 0
  let tbm := dset tbm0 m ((dget tbm0 m).getD 0 + c)
  { st with counts := counts, totals_by_year := tby,
            totals_by_manufacturer := tbm }

/-- Body of the outer `for year in results["years"]` loop:
`results["counts"][year] = {}`, `results["totals_by_year"][year] = 0`,
then the inner manufacturer loop. -/
def processYear (countOf : Nat → String → Nat) (ms : List String)
    (st : YearCountsResult) (year : Nat) : YearCountsResult :=
  let st := { st with counts := dset st.counts year [],
                      totals_by_year := dset st.totals_by_year year 0 }
  ms.foldl (processManufacturer countOf year) st

/-- Embedding of `PubMedAPI.get_publication_counts_by_year`:
manufacturers sorted by configured `display_order` (missing orders last),
years from `start_year` to `end_year` inclusive, counts and totals
accumulated per year and manufacturer. -/
def getPublicationCountsByYear (cfg : CompanyConfig)
    (countOf : Nat → String → Nat) (manufacturers : List String)
    (start_year end_year : Nat) : YearCountsResult :=
  let sorted_manufacturers := manufacturers.mergeSort (displayOrderLe cfg)
  let years := List.range' start_year (end_year + 1 - start_year)
  years.foldl (processYear countOf sorted_manufacturers)
    ⟨years, sorted_manufacturers, [], [], []⟩

theorem foldl_pm_years (countOf : Nat → String → Nat) (y : Nat) :
    ∀ (ms : List String) (st : YearCountsResult),
      (ms.foldl (processManufacturer countOf y) st).years = st.years
  | [], _ => rfl
  | m :: rest, st => foldl_pm_years countOf y rest (processManufacturer countOf y st m)

theorem foldl_pm_manufacturers (countOf : Nat → String → Nat) (y : Nat) :
    ∀ (ms : List String) (st : YearCountsResult),
      (ms.foldl (processManufacturer countOf y) st).manufacturers =
        st.manufacturers
  | [], _ => rfl
  | m :: rest, st =>
    foldl_pm_manufacturers countOf y rest (processManufacturer countOf y st m)

theorem foldl_pm_counts_ne (countOf : Nat → String → Nat) (y : Nat) :
    ∀ (ms : List String) (st : YearCountsResult) (y' : Nat), y' ≠ y →
      dget (ms.foldl (processManufacturer countOf y) st).counts y' =
        dget st.counts y'
  | [], _, _, _ => rfl
  | m :: rest, st, y', h => by
    rw [List.foldl_cons, foldl_pm_counts_ne countOf y rest _ y' h]
    unfold processManufacturer
    exact dget_dset_ne _ _ _ _ (fun he => h he.symm)

theorem foldl_pm_tby_ne (countOf : Nat → String → Nat) (y : Nat) :
    ∀ (ms : List String) (st : YearCountsResult) (y' : Nat), y' ≠ y →
      dget (ms.foldl (processManufacturer countOf y) st).totals_by_year y' =
        dget st.totals_by_year y'
  | [], _, _, _ => rfl
  | m :: rest, st, y', h => by
    rw [List.foldl_cons, foldl_pm_tby_ne countOf y rest _ y' h]
    unfold processManufacturer
    exact dget_dset_ne _ _ _ _ (fun he => h he.symm)

theorem foldl_pm_tby (countOf : Nat → String → Nat) (y : Nat) :
    ∀ (ms : List String) (st : YearCountsResult) (t0 : Nat),
      dget st.totals_by_year y = some t0 →
      dget (ms.foldl (processManufacturer countOf y) st).totals_by_year y =
        some (t0 + (ms.map (countOf y)).sum)
  | [], st, t0, h => by simpa using h
  | m :: rest, st, t0, h => by
    rw [List.foldl_cons]
    have hstep : dget (processManufacturer countOf y st m).totals_by_year y =
        some (t0 + countOf y m) := by
      unfold processManufacturer
      simp [h, dget_dset_self]
    rw [foldl_pm_tby countOf y rest _ (t0 + countOf y m) hstep]
    simp [Nat.add_assoc]

theorem foldl_pm_counts (countOf : Nat → String → Nat) (y : Nat) :
    ∀ (ms : List String) (st : YearCountsResult) (d0 : List (String × Nat)),
      dget st.counts y = some d0 →
      dget (ms.foldl (processManufacturer countOf y) st).counts y =
        some (ms.foldl (fun d m => dset d m (countOf y m)) d0)
  | [], st, d0, h => by simpa using h
  | m :: rest, st, d0, h => by
    rw [List.foldl_cons, List.foldl_cons]
    have hstep : dget (processManufacturer countOf y st m).counts y =
        some (dset d0 m (countOf y m)) := by
      unfold processManufacturer
      simp [h, dget_dset_self]
    exact foldl_pm_counts countOf y rest _ _ hstep

theorem foldl_dset_not_mem {α β : Type} [DecidableEq α] (f : α → β) :
    ∀ (ms : List α) (d : List (α × β)) (k : α), k ∉ ms →
      dget (ms.foldl (fun d m => dset d m (f m)) d) k = dget d k
  | [], _, _, _ => rfl
  | m :: rest, d, k, h => by
    rw [List.foldl_cons,
      foldl_dset_not_mem f rest _ k (fun hm => h (List.mem_cons_of_mem _ hm))]
    exact dget_dset_ne _ _ _ _ (fun he => h (he ▸ List.mem_cons_self _ _))

theorem foldl_dset_mem {α β : Type} [DecidableEq α] (f : α → β) :
    ∀ (ms : List α) (d : List (α × β)) (k : α), k ∈ ms → ms.Nodup →
      dget (ms.foldl (fun d m => dset d m (f m)) d) k = some (f k)
  | [], _, _, h, _ => absurd h (List.not_mem_nil _)
  | m :: rest, d, k, h, hnd => by
    rw [List.foldl_cons]
    rcases List.mem_cons.mp h with he | hm
    · subst he
      have hk : k ∉ rest := (List.nodup_cons.mp hnd).1
      rw [foldl_dset_not_mem f rest _ k hk]
      exact dget_dset_self _ _ _
    · exact foldl_dset_mem f rest _ k hm (List.nodup_cons.mp hnd).2

theorem processManufacturer_tbm_self (countOf : Nat → String → Nat) (y : Nat)
    (st : YearCountsResult) (m : String) :
    dget (processManufacturer countOf y st m).totals_by_manufacturer m =
      some ((dget st.totals_by_manufacturer m).getD 0 + countOf y m) := by
  unfold processManufacturer
  cases hd : dget st.totals_by_manufacturer m with
  | some v => simp [hd, dget_dset_self]
  | none => simp [hd, dget_dset_self]

theorem processManufacturer_tbm_ne (countOf : Nat → String → Nat) (y : Nat)
    (st : YearCountsResult) (m k : String) (h : m ≠ k) :
    dget (processManufacturer countOf y st m).totals_by_manufacturer k =
      dget st.totals_by_manufacturer k := by
  have e1 : ∀ (l : List (String × Nat)) (v : Nat),
      dget (dset l m v) k = dget l k := fun l v => dget_dset_ne l m k v h
  unfold processManufacturer
  cases hd : dget st.totals_by_manufacturer m with
  | some v => simp [hd, e1]
  | none => simp [hd, e1]

theorem foldl_pm_tbm_not_mem (countOf : Nat → String → Nat) (y : Nat) :
    ∀ (ms : List String) (st : YearCountsResult) (k : String), k ∉ ms →
      dget (ms.foldl (processManufacturer countOf y) st).totals_by_manufacturer
          k =
        dget st.totals_by_manufacturer k
  | [], _, _, _ => rfl
  | m :: rest, st, k, h => by
    rw [List.foldl_cons,
      foldl_pm_tbm_not_mem countOf y rest _ k
        (fun hm => h (List.mem_cons_of_mem _ hm))]
    exact processManufacturer_tbm_ne countOf y st m k
      (fun he => h (he ▸ List.mem_cons_self _ _))

theorem foldl_pm_tbm_mem (countOf : Nat → String → Nat) (y : Nat) :
    ∀ (ms : List String) (st : YearCountsResult) (k : String), k ∈ ms →
      ms.Nodup →
      dget (ms.foldl (processManufacturer countOf y) st).totals_by_manufacturer
          k =
        some ((dget st.totals_by_manufacturer k).getD 0 + countOf y k)
  | [], _, _, h, _ => absurd h (List.not_mem_nil _)
  | m :: rest, st, k, h, hnd => by
    rw [List.foldl_cons]
    rcases List.mem_cons.mp h with he | hm
    · subst he
      have hk : k ∉ rest := (List.nodup_cons.mp hnd).1
      rw [foldl_pm_tbm_not_mem countOf y rest _ k hk]
      exact processManufacturer_tbm_self countOf y st k
    · have hne : m ≠ k := by
        intro he
        exact (List.nodup_cons.mp hnd).1 (he ▸ hm)
      rw [foldl_pm_tbm_mem countOf y rest _ k hm (List.nodup_cons.mp hnd).2,
        processManufacturer_tbm_ne countOf y st m k hne]

theorem processYear_years (countOf : Nat → String → Nat) (ms : List String)
    (st : YearCountsResult) (y : Nat) :
    (processYear countOf ms st y).years = st.years :=
  foldl_pm_years countOf y ms _

theorem processYear_manufacturers (countOf : Nat → String → Nat)
    (ms : List String) (st : YearCountsResult) (y : Nat) :
    (processYear countOf ms st y).manufacturers = st.manufacturers :=
  foldl_pm_manufacturers countOf y ms _

theorem processYear_counts_self (countOf : Nat → String → Nat)
    (ms : List String) (st : YearCountsResult) (y : Nat) :
    dget (processYear countOf ms st y).counts y =
      some (ms.foldl (fun d m => dset d m (countOf y m)) []) :=
  foldl_pm_counts countOf y ms _ [] (dget_dset_self _ _ _)

theorem processYear_tby_self (countOf : Nat → String → Nat) (ms : List String)
    (st : YearCountsResult) (y : Nat) :
    dget (processYear countOf ms st y).totals_by_year y =
      some ((ms.map (countOf y)).sum) := by
  have h := foldl_pm_tby countOf y ms
    { st with counts := dset st.counts y [],
              totals_by_year := dset st.totals_by_year y 0 } 0
    (dget_dset_self _ _ _)
  simpa [processYear] using h

theorem processYear_counts_ne (countOf : Nat → String → Nat) (ms : List String)
    (st : YearCountsResult) (y y' : Nat) (h : y' ≠ y) :
    dget (processYear countOf ms st y).counts y' = dget st.counts y' := by
  unfold processYear
  rw [foldl_pm_counts_ne countOf y ms _ y' h]
  exact dget_dset_ne _ _ _ _ (fun he => h he.symm)

theorem processYear_tby_ne (countOf : Nat → String → Nat) (ms : List String)
    (st : YearCountsResult) (y y' : Nat) (h : y' ≠ y) :
    dget (processYear countOf ms st y).totals_by_year y' =
      dget st.totals_by_year y' := by
  unfold processYear
  rw [foldl_pm_tby_ne countOf y ms _ y' h]
  exact dget_dset_ne _ _ _ _ (fun he => h he.symm)

theorem processYear_tbm_mem (countOf : Nat → String → Nat) (ms : List String)
    (st : YearCountsResult) (y : Nat) (k : String) (hk : k ∈ ms)
    (hnd : ms.Nodup) :
    dget (processYear countOf ms st y).totals_by_manufacturer k =
      some ((dget st.totals_by_manufacturer k).getD 0 + countOf y k) :=
  foldl_pm_tbm_mem countOf y ms _ k hk hnd

theorem foldl_py_years (countOf : Nat → String → Nat) (ms : List String) :
    ∀ (ys : List Nat) (st : YearCountsResult),
      (ys.foldl (processYear countOf ms) st).years = st.years
  | [], _ => rfl
  | y :: rest, st => by
    rw [List.foldl_cons, foldl_py_years countOf ms rest _]
    exact processYear_years countOf ms st y

theorem foldl_py_manufacturers (countOf : Nat → String → Nat)
    (ms : List String) :
    ∀ (ys : List Nat) (st : YearCountsResult),
      (ys.foldl (processYear countOf ms) st).manufacturers = st.manufacturers
  | [], _ => rfl
  | y :: rest, st => by
    rw [List.foldl_cons, foldl_py_manufacturers countOf ms rest _]
    exact processYear_manufacturers countOf ms st y

theorem foldl_py_counts_tby_not_mem (countOf : Nat → String → Nat)
    (ms : List String) :
    ∀ (ys : List Nat) (st : YearCountsResult) (y : Nat), y ∉ ys →
      dget (ys.foldl (processYear countOf ms) st).counts y = dget st.counts y ∧
      dget (ys.foldl (processYear countOf ms) st).totals_by_year y =
        dget st.totals_by_year y
  | [], _, _, _ => ⟨rfl, rfl⟩
  | y0 :: rest, st, y, h => by
    have hrest : y ∉ rest := fun hm => h (List.mem_cons_of_mem _ hm)
    have hne : y ≠ y0 := fun he => h (he ▸ List.mem_cons_self _ _)
    have ih := foldl_py_counts_tby_not_mem countOf ms rest
      (processYear countOf ms st y0) y hrest
    rw [List.foldl_cons]
    exact ⟨ih.1.trans (processYear_counts_ne countOf ms st y0 y hne),
           ih.2.trans (processYear_tby_ne countOf ms st y0 y hne)⟩

theorem foldl_py_counts_tby_mem (countOf : Nat → String → Nat)
    (ms : List String) :
    ∀ (ys : List Nat) (st : YearCountsResult) (y : Nat), y ∈ ys → ys.Nodup →
      dget (ys.foldl (processYear countOf ms) st).counts y =
        some (ms.foldl (fun d m => dset d m (countOf y m)) []) ∧
      dget (ys.foldl (processYear countOf ms) st).totals_by_year y =
        some ((ms.map (countOf y)).sum)
  | [], _, _, h, _ => absurd h (List.not_mem_nil _)
  | y0 :: rest, st, y, h, hnd => by
    rw [List.foldl_cons]
    rcases List.mem_cons.mp h with he | hm
    · subst he
      have hy : y ∉ rest := (List.nodup_cons.mp hnd).1
      have hp := foldl_py_counts_tby_not_mem countOf ms rest
        (processYear countOf ms st y) y hy
      exact ⟨hp.1.trans (processYear_counts_self countOf ms st y),
             hp.2.trans (processYear_tby_self countOf ms st y)⟩
    · exact foldl_py_counts_tby_mem countOf ms rest _ y hm
        (List.nodup_cons.mp hnd).2

theorem foldl_py_tbm_acc (countOf : Nat → String → Nat) (ms : List String) :
    ∀ (ys : List Nat) (st : YearCountsResult) (k : String) (t0 : Nat),
      k ∈ ms → ms.Nodup → dget st.totals_by_manufacturer k = some t0 →
      dget (ys.foldl (processYear countOf ms) st).totals_by_manufacturer k =
        some (t0 + (ys.map (fun y => countOf y k)).sum)
  | [], st, k, t0, _, _, h => by simpa using h
  | y0 :: rest, st, k, t0, hk, hnd, h => by
    rw [List.foldl_cons]
    have h0 : dget
        (processYear countOf ms st y0).totals_by_manufacturer k =
        some (t0 + countOf y0 k) := by
      rw [processYear_tbm_mem countOf ms st y0 k hk hnd, h]
      rfl
    rw [foldl_py_tbm_acc countOf ms rest _ k (t0 + countOf y0 k) hk hnd h0]
    simp [Nat.add_assoc]

theorem foldl_py_tbm_from_empty (countOf : Nat → String → Nat)
    (ms : List String) :
    ∀ (ys : List Nat) (st : YearCountsResult) (k : String),
      k ∈ ms → ms.Nodup → dget st.totals_by_manufacturer k = none → ys ≠ [] →
      dget (ys.foldl (processYear countOf ms) st).totals_by_manufacturer k =
        some ((ys.map (fun y => countOf y k)).sum)
  | [], _, _, _, _, _, h => absurd rfl h
  | y0 :: rest, st, k, hk, hnd, hnone, _ => by
    rw [List.foldl_cons]
    have h0 : dget
        (processYear countOf ms st y0).totals_by_manufacturer k =
        some (countOf y0 k) := by
      rw [processYear_tbm_mem countOf ms st y0 k hk hnd, hnone]
      simp
    rw [foldl_py_tbm_acc countOf ms rest _ k (countOf y0 k) hk hnd h0]
    simp

/-- C10 counterexample: the claimed totals invariants fail outside the
amended conditions. With the duplicated manufacturer list `["A", "A"]`
(the route passes the user-supplied list through unchanged) and the single
year 2020 with every count 1, `totals_by_manufacturer["A"]` is 2 — the
count accumulated once per occurrence — while the sum over the years of
`counts[y]["A"]` is 1; and with `start_year > end_year` the
`totals_by_manufacturer` dictionary has no keys at all although the
result's manufacturers list is non-empty. -/
theorem getPublicationCountsByYear_duplicates_cx :
    dget (getPublicationCountsByYear (fun _ => none) (fun _ _ => 1)
        ["A", "A"] 2020 2020).totals_by_manufacturer "A" = some 2 ∧
    ((getPublicationCountsByYear (fun _ => none) (fun _ _ => 1)
        ["A", "A"] 2020 2020).years.map
      (fun y => (dget ((dget (getPublicationCountsByYear (fun _ => none)
          (fun _ _ => 1) ["A", "A"] 2020 2020).counts y).getD []) "A").getD
            0)).sum = 1 ∧
    (some 2 : Option Nat) ≠ some 1 ∧
    "B" ∈ (getPublicationCountsByYear (fun _ => none) (fun _ _ => 1)
        ["B"] 2021 2020).manufacturers ∧
    dget (getPublicationCountsByYear (fun _ => none) (fun _ _ => 1)
        ["B"] 2021 2020).totals_by_manufacturer "B" = none := by
  have hperm := List.mergeSort_perm (["A", "A"] : List String)
    (displayOrderLe (fun _ => none))
  have hlen : ((["A", "A"] : List String).mergeSort
      (displayOrderLe (fun _ => none))).length = 2 := hperm.length_eq
  obtain ⟨x, y, hxy⟩ := List.length_eq_two.mp hlen
  have hx : x = "A" := by
    have hxm : x ∈ (["A", "A"] : List String) :=
      hperm.mem_iff.mp (by rw [hxy]; simp)
    simpa using hxm
  have hy : y = "A" := by
    have hym : y ∈ (["A", "A"] : List String) :=
      hperm.mem_iff.mp (by rw [hxy]; simp)
    simpa using hym
  have hms : (["A", "A"] : List String).mergeSort
      (displayOrderLe (fun _ => none)) = ["A", "A"] := by
    rw [hxy, hx, hy]
  have hr : getPublicationCountsByYear (fun _ => none) (fun _ _ => 1)
      ["A", "A"] 2020 2020 =
      (List.range' 2020 1).foldl (processYear (fun _ _ => 1) ["A", "A"])
        ⟨List.range' 2020 1, ["A", "A"], [], [], []⟩ := by
    unfold getPublicationCountsByYear
    rw [hms]
  have hmB : (getPublicationCountsByYear (fun _ => none) (fun _ _ => 1)
      ["B"] 2021 2020).manufacturers =
      (["B"] : List String).mergeSort (displayOrderLe (fun _ => none)) := rfl
  refine ⟨?_, ?_, by decide, ?_, rfl⟩
  · rw [hr]; decide
  · rw [hr]; decide
  · rw [hmB]
    exact (List.mergeSort_perm _ _).mem_iff.mpr (by simp)

/-- C10 (amended): in every result of `get_publication_counts_by_year`
whose manufacturer names are pairwise distinct, `results["years"]` is
exactly the integers from `start_year` to `end_year` inclusive and each
`totals_by_year[y]` is the sum over the result's manufacturers of
`counts[y][m]`; and whenever moreover at least one year is processed
(`start_year` at most `end_year`), each `totals_by_manufacturer[m]` is the
sum over the years of `counts[y][m]`. (With a duplicated name the
per-manufacturer total double-counts; with no years the totals dictionary
is keyless.) -/
theorem getPublicationCountsByYear_invariants (cfg : CompanyConfig)
    (countOf : Nat → String → Nat) (manufacturers : List String)
    (start_year end_year : Nat) (hnd : manufacturers.Nodup) :
    (getPublicationCountsByYear cfg countOf manufacturers start_year
        end_year).years =
      List.range' start_year (end_year + 1 - start_year) ∧
    (∀ y, y ∈ (getPublicationCountsByYear cfg countOf manufacturers start_year
        end_year).years ↔ start_year ≤ y ∧ y ≤ end_year) ∧
    (∀ y ∈ (getPublicationCountsByYear cfg countOf manufacturers start_year
        end_year).years,
      dget (getPublicationCountsByYear cfg countOf manufacturers start_year
          end_year).totals_by_year y =
        some (((getPublicationCountsByYear cfg countOf manufacturers start_year
            end_year).manufacturers.map
          (fun m => (dget ((dget (getPublicationCountsByYear cfg countOf
            manufacturers start_year end_year).counts y).getD []) m).getD
              0)).sum)) ∧
    (∀ m ∈ (getPublicationCountsByYear cfg countOf manufacturers start_year
        end_year).manufacturers, start_year ≤ end_year →
      dget (getPublicationCountsByYear cfg countOf manufacturers start_year
          end_year).totals_by_manufacturer m =
        some (((getPublicationCountsByYear cfg countOf manufacturers start_year
            end_year).years.map
          (fun y => (dget ((dget (getPublicationCountsByYear cfg countOf
            manufacturers start_year end_year).counts y).getD []) m).getD
              0)).sum)) := by
  have hsnd : (manufacturers.mergeSort (displayOrderLe cfg)).Nodup :=
    (List.mergeSort_perm manufacturers (displayOrderLe cfg)).symm.nodup hnd
  have hynd : (List.range' start_year (end_year + 1 - start_year)).Nodup := by
    apply List.nodup_range'
    norm_num
  set ms := manufacturers.mergeSort (displayOrderLe cfg) with hms
  set ys := List.range' start_year (end_year + 1 - start_year) with hys
  set init : YearCountsResult := ⟨ys, ms, [], [], []⟩ with hinit
  have hr : getPublicationCountsByYear cfg countOf manufacturers start_year
      end_year = ys.foldl (processYear countOf ms) init := rfl
  rw [hr]
  have hyears : (ys.foldl (processYear countOf ms) init).years = ys := by
    rw [foldl_py_years]
  have hmans : (ys.foldl (processYear countOf ms) init).manufacturers = ms := by
    rw [foldl_py_manufacturers]
  refine ⟨hyears, ?_, ?_, ?_⟩
  · intro y
    rw [hyears, hys, List.mem_range'_1]
    omega
  · intro y hy
    rw [hyears] at hy
    obtain ⟨hc, ht⟩ := foldl_py_counts_tby_mem countOf ms ys init y hy hynd
    rw [ht, hmans, hc]
    refine congrArg (fun l => some (List.sum l)) (List.map_congr_left ?_)
    intro m hm
    simp only [Option.getD_some]
    rw [foldl_dset_mem (fun m => countOf y m) ms [] m hm hsnd]
    rfl
  · intro m hm hse
    rw [hmans] at hm
    have hysne : ys ≠ [] := by
      have hlen : ys.length = end_year + 1 - start_year := by
        rw [hys]
        simp
      apply List.length_pos.mp
      omega
    rw [foldl_py_tbm_from_empty countOf ms ys init m hm hsnd rfl hysne, hyears]
    refine congrArg (fun l => some (List.sum l)) (List.map_congr_left ?_)
    intro y hy
    obtain ⟨hc, _⟩ := foldl_py_counts_tby_mem countOf ms ys init y hy hynd
    rw [hc]
    simp only [Option.getD_some]
    rw [foldl_dset_mem (fun m => countOf y m) ms [] m hm hsnd]
    rfl

/-- Witness for C10: a concrete two-manufacturer, two-year instance with
distinct manufacturer names. -/
theorem getPublicationCountsByYear_invariants_witness :
    (["A", "B"] : List String).Nodup ∧
    (getPublicationCountsByYear (fun _ => none) (fun y m => y + m.length)
      ["A", "B"] 2020 2021).years = List.range' 2020 2 :=
  ⟨by decide, by
    have h := (getPublicationCountsByYear_invariants (fun _ => none)
      (fun y m => y + m.length) ["A", "B"] 2020 2021 (by decide)).1
    simpa using h⟩
